import Mathlib

/-!
Shallow embedding of the cnki-collect operator console (front-end JS) and
verification of its specification claims.

Source files embedded:
- `static/js/articles.js` (`ArticleManager`): article list loading, pagination,
  selection bookkeeping, bulk/single download dispatch, literature statistics.
- `app.js` (`CNKIApp.addLog`): the capped event log.
- task manager file (`TaskManager`): task polling, status aggregation,
  task control commands, auto refresh timer.
- `static/js/resources.js` (`ResourceManager.renderFileList`): file listing.

Modelling conventions: machine-level JS values become `Nat`/`String`;
a JS `Set` of ids becomes an insertion-ordered duplicate-free `List Nat`
(matching `Set` iteration order used by `Array.from`); every `async`
operation becomes a pure state transformer parameterised by the outcome of
its `fetch` (`ok` = envelope `success:true`, `err` = envelope
`success:false` with an error string, `transport` = the `fetch`/`json`
promise rejecting, landing in the `catch` block).  DOM-only effects
(innerHTML, class toggles, alert, tab clicks) are outside the state.
-/

namespace Cnki

/-- Event-log levels used by `CNKIApp.addLog` (app.js). -/
inductive LogLevel where
  | info
  | success
  | warning
  | error
deriving DecidableEq, Repr

/-- One entry of the operator-visible event log. -/
structure LogEntry where
  level : LogLevel
  message : String
deriving DecidableEq, Repr

/-- CNKIApp.addLog: appends one entry, then evicts the oldest entry when the
container holds more than 100 (`if (logs.length > 100) removeChild(logs[0])`). -/
def addLog (logs : List LogEntry) (level : LogLevel) (message : String) :
    List LogEntry :=
  let appended := logs ++ [⟨level, message⟩]
  if appended.length > 100 then appended.tail else appended

/-- JS `Set.add`: inserts at the end iff not already present. -/
def setAdd (s : List Nat) (x : Nat) : List Nat :=
  if x ∈ s then s else s ++ [x]

/-- JS `Set.delete`: removes the element, keeping the order of the rest. -/
def setDelete (s : List Nat) (x : Nat) : List Nat :=
  s.filter (fun y => y ≠ x)

/-- ArticleRecord fields the embedded operations actually read. -/
structure Article where
  id : Nat
  keyword : String
  status : String
deriving DecidableEq, Repr

/-- Client-side state owned by `CNKIApp` that `ArticleManager` mutates:
the selection set, the loaded page, the cursor, and the event log. -/
structure AppState where
  selectedArticles : List Nat
  currentArticles : List Article
  currentPage : Nat
  totalPages : Nat
  logs : List LogEntry
deriving DecidableEq, Repr

/-- Outcome of one `fetch(...).then(r => r.json())` round trip:
`ok` = `{success: true, ...}`, `err` = `{success: false, error}`,
`transport` = the promise rejected (network failure), caught by `catch`. -/
inductive FetchOutcome (α : Type) where
  | ok (data : α)
  | err (error : String)
  | transport (message : String)
deriving DecidableEq, Repr

/-- Network requests the embedded operations can issue. -/
inductive Request where
  | getArticles (page perPage : Nat) (search keyword literatureType : String)
  | postDownload (articleIds : List Nat) (maxWorkers : Nat)
  | getLiteratureStats
  | getTasks
  | getDownloadTasks
  | postTaskAction (taskId : Nat) (action : String)
  | getTask (taskId : Nat)
deriving DecidableEq, Repr

/-- Payload of a successful `/api/articles` reply. -/
structure ArticlesPayload where
  articles : List Article
  page : Nat
  total : Nat
  perPage : Nat
deriving DecidableEq, Repr

/-- Nat version of `Math.ceil(total / perPage)` (exact for `perPage > 0`). -/
def ceilPages (total perPage : Nat) : Nat :=
  (total + perPage - 1) / perPage

/-- ArticleManager.loadArticles: on success replaces the loaded page, records
the page cursor and recomputes `totalPages = Math.ceil(total / per_page)`;
on an error envelope or a transport error it only logs one error entry.
(The success branch additionally triggers DOM rendering and a
`loadLiteratureStats` fetch, neither of which touches these fields.) -/
def loadArticles (s : AppState) (outcome : FetchOutcome ArticlesPayload) :
    AppState :=
  match outcome with
  | .ok p =>
      { s with
        currentArticles := p.articles
        currentPage := p.page
        totalPages := ceilPages p.total p.perPage }
  | .err e =>
      { s with logs := addLog s.logs .error ("加载文章失败: " ++ e) }
  | .transport m =>
      { s with logs := addLog s.logs .error ("网络错误: " ++ m) }

/-- ArticleManager.updatePagination: the list of page indices rendered.
Nothing is rendered when `totalPages <= 1`; otherwise the indices run from
`startPage = Math.max(1, currentPage - 2)` to
`endPage = Math.min(totalPages, currentPage + 2)`. -/
def paginationWindow (currentPage totalPages : Nat) : List Nat :=
  if totalPages ≤ 1 then []
  else
    let startPage := max 1 (currentPage - 2)
    let endPage := min totalPages (currentPage + 2)
    List.range' startPage (endPage + 1 - startPage)

/-- ArticleManager.toggleSelection: symmetric add/remove on the selection. -/
def toggleSelection (s : AppState) (articleId : Nat) : AppState :=
  if articleId ∈ s.selectedArticles then
    { s with selectedArticles := setDelete s.selectedArticles articleId }
  else
    { s with selectedArticles := setAdd s.selectedArticles articleId }

/-- ArticleManager.clearSelection (DOM re-render aside). -/
def clearSelection (s : AppState) : AppState :=
  { s with selectedArticles := [] }

/-- ArticleManager.downloadSelected, with `maxWorkers` the parsed value of the
`#maxWorkers` input.  Empty selection: one local validation error, no fetch.
Otherwise it POSTs the selection; only the success branch clears the
selection (`clearSelection()`), logs the batch info message and refreshes
the download task list; the error and transport branches only log. -/
def downloadSelected (s : AppState) (maxWorkers : Nat)
    (outcome : FetchOutcome Unit) : AppState × List Request :=
  if s.selectedArticles.length = 0 then
    ({ s with logs := addLog s.logs .error "请先选择要下载的文章" }, [])
  else
    let articleIds := s.selectedArticles
    match outcome with
    | .ok _ =>
        (clearSelection
          { s with
            logs := addLog s.logs .info
              ("已启动下载任务，共 " ++ toString articleIds.length ++ " 篇文章") },
         [.postDownload articleIds maxWorkers, .getDownloadTasks])
    | .err e =>
        ({ s with logs := addLog s.logs .error ("启动下载失败: " ++ e) },
         [.postDownload articleIds maxWorkers])
    | .transport m =>
        ({ s with logs := addLog s.logs .error ("网络错误: " ++ m) },
         [.postDownload articleIds maxWorkers])

/-- ArticleManager.downloadSingle: POSTs `{article_ids: [articleId],
max_workers: 1}`; success logs the single-article info message and refreshes
the download task list; the selection is never touched. -/
def downloadSingle (s : AppState) (articleId : Nat)
    (outcome : FetchOutcome Unit) : AppState × List Request :=
  match outcome with
  | .ok _ =>
      ({ s with logs := addLog s.logs .info "已启动单篇文章下载" },
       [.postDownload [articleId] 1, .getDownloadTasks])
  | .err e =>
      ({ s with logs := addLog s.logs .error ("启动下载失败: " ++ e) },
       [.postDownload [articleId] 1])
  | .transport m =>
      ({ s with logs := addLog s.logs .error ("网络错误: " ++ m) },
       [.postDownload [articleId] 1])

/-- ArticleManager.loadLiteratureStats: the success branch only renders into
the DOM; both failure branches call `console.error` and never `addLog`, so
the client state (event log included) is unchanged on every outcome. -/
def loadLiteratureStats (s : AppState) (outcome : FetchOutcome Unit) :
    AppState :=
  match outcome with
  | .ok _ => s
  | .err _ => s
  | .transport _ => s

/-- TaskRecord fields the embedded TaskManager operations actually read. -/
structure Task where
  id : Nat
  status : String
deriving DecidableEq, Repr

/-- The per-status counters produced by `TaskManager.updateTaskStats`
(the `stats` object literal with keys running/paused/completed/failed). -/
structure TaskStats where
  running : Nat
  paused : Nat
  completed : Nat
  failed : Nat
deriving DecidableEq, Repr

/-- One iteration of the `forEach` in `updateTaskStats`:
`if (stats.hasOwnProperty(task.status)) stats[task.status]++` — only the four
keys of the literal exist, so any other status (e.g. `pending`) is skipped. -/
def statsInc (st : TaskStats) (status : String) : TaskStats :=
  if status = "running" then { st with running := st.running + 1 }
  else if status = "paused" then { st with paused := st.paused + 1 }
  else if status = "completed" then { st with completed := st.completed + 1 }
  else if status = "failed" then { st with failed := st.failed + 1 }
  else st

/-- TaskManager.updateTaskStats: one pass over `this.tasks`. -/
def updateTaskStats (tasks : List Task) : TaskStats :=
  tasks.foldl (fun st t => statsInc st t.status) ⟨0, 0, 0, 0⟩

/-- TaskManager state: the task snapshot, the auto-refresh interval handle
(`this.refreshInterval`, a timer id or null), the enable flag, and the shared
event log reached through `this.app.addLog`. -/
structure TaskMgrState where
  tasks : List Task
  refreshInterval : Option Nat
  autoRefreshEnabled : Bool
  logs : List LogEntry
deriving DecidableEq, Repr

/-- TaskManager.loadTasks, resumed at the point its `/api/tasks` response
resolves: the success branch unconditionally overwrites `this.tasks` (there
is no generation or stopped-state check anywhere in the continuation); the
error and transport branches only log one error entry. -/
def loadTasksResolve (s : TaskMgrState) (outcome : FetchOutcome (List Task)) :
    TaskMgrState :=
  match outcome with
  | .ok ts => { s with tasks := ts }
  | .err e =>
      { s with logs := addLog s.logs .error ("加载任务失败: " ++ e) }
  | .transport m =>
      { s with logs := addLog s.logs .error ("网络错误: " ++ m) }

/-- TaskManager.startAutoRefresh: clears any previous interval and installs a
fresh one (modelled by its fresh timer id). -/
def startAutoRefresh (s : TaskMgrState) (newHandle : Nat) : TaskMgrState :=
  { s with refreshInterval := some newHandle }

/-- TaskManager.stopAutoRefresh: clears the interval if one is set; it does
not touch the task snapshot, and nothing records that a stop happened for
any poll already in flight to observe. -/
def stopAutoRefresh (s : TaskMgrState) : TaskMgrState :=
  match s.refreshInterval with
  | some _ => { s with refreshInterval := none }
  | none => s

/-- TaskManager.pauseTask at the point its response resolves (the success
branch also triggers a `loadTasks` refresh, a separate fetch). -/
def pauseTask (s : TaskMgrState) (outcome : FetchOutcome Unit) : TaskMgrState :=
  match outcome with
  | .ok _ => { s with logs := addLog s.logs .success "任务已暂停" }
  | .err e => { s with logs := addLog s.logs .error ("暂停任务失败: " ++ e) }
  | .transport m => { s with logs := addLog s.logs .error ("网络错误: " ++ m) }

/-- TaskManager.resumeTask at the point its response resolves. -/
def resumeTask (s : TaskMgrState) (outcome : FetchOutcome Unit) :
    TaskMgrState :=
  match outcome with
  | .ok _ => { s with logs := addLog s.logs .success "任务已恢复" }
  | .err e => { s with logs := addLog s.logs .error ("恢复任务失败: " ++ e) }
  | .transport m => { s with logs := addLog s.logs .error ("网络错误: " ++ m) }

/-- TaskManager.stopTask at the point its response resolves. -/
def stopTask (s : TaskMgrState) (outcome : FetchOutcome Unit) : TaskMgrState :=
  match outcome with
  | .ok _ => { s with logs := addLog s.logs .success "任务已停止" }
  | .err e => { s with logs := addLog s.logs .error ("停止任务失败: " ++ e) }
  | .transport m => { s with logs := addLog s.logs .error ("网络错误: " ++ m) }

/-- TaskManager.viewTaskDetails at the point its response resolves: success
shows an `alert` (DOM only); failures log one error entry. -/
def viewTaskDetails (s : TaskMgrState) (outcome : FetchOutcome Task) :
    TaskMgrState :=
  match outcome with
  | .ok _ => s
  | .err e =>
      { s with logs := addLog s.logs .error ("获取任务详情失败: " ++ e) }
  | .transport m =>
      { s with logs := addLog s.logs .error ("网络错误: " ++ m) }

/-- Resource file record returned by `/api/files/{category}`; `modified` is
the modification timestamp (`new Date(file.modified)` in the comparator),
modelled as milliseconds since the epoch. -/
structure ResourceFile where
  name : String
  path : String
  size : Nat
  modified : Nat
deriving DecidableEq, Repr

/-- The comparator `(a, b) => new Date(b.modified) - new Date(a.modified)`
passed to `Array.prototype.sort`: `a` may precede `b` iff the difference is
not positive, i.e. iff `b.modified ≤ a.modified`. -/
def modifiedDesc (a b : ResourceFile) : Bool :=
  b.modified ≤ a.modified

/-- ResourceManager.renderFileList: an empty (or missing) list renders a
placeholder and no items; otherwise the items are rendered in the order of
`files.sort(comparator)` (ECMAScript `sort` is stable, modelled by the
stable `mergeSort`). -/
def renderFileList (files : List ResourceFile) : List ResourceFile :=
  if files.length = 0 then []
  else files.mergeSort modifiedDesc

/-- SearchManager.loadLiteratureTypes at the point its response resolves:
success renders the options into the select element; failures log one error
entry. -/
def loadLiteratureTypes (logs : List LogEntry) (outcome : FetchOutcome Unit) :
    List LogEntry :=
  match outcome with
  | .ok _ => logs
  | .err e => addLog logs .error ("加载文献类型失败: " ++ e)
  | .transport m => addLog logs .error ("网络错误: " ++ m)

/-- SearchManager.startTask: logs the starting info entry before the POST,
then one success entry or one error entry when the response resolves.  Both
the keyword search and the journal scrape go through this helper. -/
def startTask (logs : List LogEntry) (taskName : String)
    (outcome : FetchOutcome Unit) : List LogEntry :=
  let logs := addLog logs .info ("正在启动" ++ taskName ++ "...")
  match outcome with
  | .ok _ => addLog logs .success (taskName ++ "已启动")
  | .err e => addLog logs .error ("启动" ++ taskName ++ "失败: " ++ e)
  | .transport m => addLog logs .error ("网络错误: " ++ m)

/-- SearchManager.startKeywordSearch: an empty keyword list is a local
validation error (one error entry, no fetch); otherwise it delegates to
`startTask` with the keyword-search task name. -/
def startKeywordSearch (logs : List LogEntry) (keywords : List String)
    (taskName : String) (outcome : FetchOutcome Unit) : List LogEntry :=
  if keywords.length = 0 then addLog logs .error "请输入至少一个关键词"
  else startTask logs taskName outcome

/-- SearchManager.startJournalScrape: delegates to `startTask` with the
journal task name (no local guard). -/
def startJournalScrape (logs : List LogEntry) (outcome : FetchOutcome Unit) :
    List LogEntry :=
  startTask logs "期刊检索" outcome

/-- SearchManager.loadSearchHistory at the point its response resolves:
success renders the history list; failures log one error entry. -/
def loadSearchHistory (logs : List LogEntry) (outcome : FetchOutcome Unit) :
    List LogEntry :=
  match outcome with
  | .ok _ => logs
  | .err e => addLog logs .error ("加载搜索历史失败: " ++ e)
  | .transport m => addLog logs .error ("网络错误: " ++ m)

/-- DownloadManager.loadTasks at the point its response resolves: success
renders the download task list; failures log one error entry. -/
def dlLoadTasks (logs : List LogEntry) (outcome : FetchOutcome Unit) :
    List LogEntry :=
  match outcome with
  | .ok _ => logs
  | .err e => addLog logs .error ("加载下载任务失败: " ++ e)
  | .transport m => addLog logs .error ("网络错误: " ++ m)

/-- DownloadManager.viewTaskDetails at the point its response resolves:
success shows an `alert` (DOM only); failures log one error entry. -/
def dlViewTaskDetails (logs : List LogEntry) (outcome : FetchOutcome Unit) :
    List LogEntry :=
  match outcome with
  | .ok _ => logs
  | .err e => addLog logs .error ("获取任务详情失败: " ++ e)
  | .transport m => addLog logs .error ("网络错误: " ++ m)

/-- DownloadManager.startDownload: logs the starting info entry before the
POST, then one success entry or one error entry. -/
def startDownload (logs : List LogEntry) (outcome : FetchOutcome Unit) :
    List LogEntry :=
  let logs := addLog logs .info "正在启动下载任务..."
  match outcome with
  | .ok _ => addLog logs .success "下载任务已启动"
  | .err e => addLog logs .error ("启动下载失败: " ++ e)
  | .transport m => addLog logs .error ("网络错误: " ++ m)

/-- DownloadManager.stopDownload at the point its response resolves. -/
def stopDownload (logs : List LogEntry) (outcome : FetchOutcome Unit) :
    List LogEntry :=
  match outcome with
  | .ok _ => addLog logs .info "下载任务已停止"
  | .err e => addLog logs .error ("停止下载失败: " ++ e)
  | .transport m => addLog logs .error ("网络错误: " ++ m)

/-- The four resource-center listing categories (links, downloads, exports,
logs), each backed by its own near-identical loader in resources.js. -/
inductive ResourceCategory where
  | links
  | downloads
  | exports
  | logs
deriving DecidableEq, Repr

/-- ResourceManager.loadLinkFiles / loadDownloadFiles / loadExportFiles /
loadLogFiles: success renders through `renderFileList`; an error envelope is
thrown and, like a transport error, lands in the `catch` block whose
`renderError` writes an inline alert into the panel container only — the
event log is never touched on any outcome. -/
def loadResourceFiles (category : ResourceCategory) (logs : List LogEntry)
    (outcome : FetchOutcome (List ResourceFile)) : List LogEntry :=
  match category, outcome with
  | _, .ok _ => logs
  | _, .err _ => logs
  | _, .transport _ => logs

/-- Every console operation that performs a fetch and can fail, across the
article, task, search, download and resource views. -/
inductive ConsoleOp where
  | loadArticlesOp
  | downloadSelectedOp
  | downloadSingleOp
  | literatureStatsOp
  | tasksLoadOp
  | pauseTaskOp
  | resumeTaskOp
  | stopTaskOp
  | taskDetailsOp
  | literatureTypesOp
  | keywordSearchStartOp (keywords : List String) (taskName : String)
  | journalScrapeStartOp
  | searchHistoryOp
  | dlTasksLoadOp
  | dlTaskDetailsOp
  | startDownloadOp
  | stopDownloadOp
  | resourceFilesOp (category : ResourceCategory)
deriving DecidableEq, Repr

/-- The console operations whose failures never reach the event log: the
literature-statistics load (`console.error` only) and the resource-file
listings (`renderError` into the panel only). -/
def silentOnFailure : ConsoleOp → Bool
  | .literatureStatsOp => true
  | .resourceFilesOp _ => true
  | _ => false

/-- The event log an operation starts from: task-view operations log
through the `TaskMgrState` log, every other operation through the
`AppState` log (both are `this.app.addLog` on the same app). -/
def opBaseLogs (op : ConsoleOp) (s : AppState) (ts : TaskMgrState) :
    List LogEntry :=
  match op with
  | .tasksLoadOp | .pauseTaskOp | .resumeTaskOp | .stopTaskOp
  | .taskDetailsOp => ts.logs
  | _ => s.logs

/-- The event log after the operation's failing round trip resolves:
`transport = true` is a rejected fetch (the `catch` block), `transport =
false` an envelope `{success: false, error: e}`.  `aid` is the article id of
a single download and `w` the bulk worker count (neither affects the failure
branch; they are threaded to apply the embedded operations unmodified). -/
def opFailLogs (op : ConsoleOp) (s : AppState) (ts : TaskMgrState)
    (aid w : Nat) (e : String) (transport : Bool) : List LogEntry :=
  let oU : FetchOutcome Unit := if transport then .transport e else .err e
  let oA : FetchOutcome ArticlesPayload :=
    if transport then .transport e else .err e
  let oL : FetchOutcome (List Task) := if transport then .transport e else .err e
  let oT : FetchOutcome Task := if transport then .transport e else .err e
  let oR : FetchOutcome (List ResourceFile) :=
    if transport then .transport e else .err e
  match op with
  | .loadArticlesOp => (loadArticles s oA).logs
  | .downloadSelectedOp => (downloadSelected s w oU).1.logs
  | .downloadSingleOp => (downloadSingle s aid oU).1.logs
  | .literatureStatsOp => (loadLiteratureStats s oU).logs
  | .tasksLoadOp => (loadTasksResolve ts oL).logs
  | .pauseTaskOp => (pauseTask ts oU).logs
  | .resumeTaskOp => (resumeTask ts oU).logs
  | .stopTaskOp => (stopTask ts oU).logs
  | .taskDetailsOp => (viewTaskDetails ts oT).logs
  | .literatureTypesOp => loadLiteratureTypes s.logs oU
  | .keywordSearchStartOp kws tn => startKeywordSearch s.logs kws tn oU
  | .journalScrapeStartOp => startJournalScrape s.logs oU
  | .searchHistoryOp => loadSearchHistory s.logs oU
  | .dlTasksLoadOp => dlLoadTasks s.logs oU
  | .dlTaskDetailsOp => dlViewTaskDetails s.logs oU
  | .startDownloadOp => startDownload s.logs oU
  | .stopDownloadOp => stopDownload s.logs oU
  | .resourceFilesOp c => loadResourceFiles c s.logs oR

/-! ## Helper lemmas shared by the claim theorems -/

/-- Appending through `addLog` always leaves the new entry last, whether or
not the oldest entry was evicted. -/
theorem addLog_getLast (logs : List LogEntry) (lvl : LogLevel) (msg : String) :
    (addLog logs lvl msg).getLast? = some ⟨lvl, msg⟩ := by
  unfold addLog
  by_cases h : (logs ++ [(⟨lvl, msg⟩ : LogEntry)]).length > 100
  · rw [if_pos h]
    cases logs with
    | nil => simp at h
    | cons a l => simp [List.getLast?_concat]
  · rw [if_neg h]
    exact List.getLast?_concat _

/-- Running the `forEach` of `updateTaskStats` from an arbitrary accumulator
adds exactly the per-status occurrence counts. -/
theorem statsFoldl_counts (tasks : List Task) (st : TaskStats) :
    tasks.foldl (fun a t => statsInc a t.status) st =
      ⟨st.running + tasks.countP (fun t => t.status = "running"),
       st.paused + tasks.countP (fun t => t.status = "paused"),
       st.completed + tasks.countP (fun t => t.status = "completed"),
       st.failed + tasks.countP (fun t => t.status = "failed")⟩ := by
  induction tasks generalizing st with
  | nil => simp
  | cons t ts ih =>
      rw [List.foldl_cons, ih]
      unfold statsInc
      by_cases h1 : t.status = "running"
      · simp [h1, List.countP_cons]
        omega
      · by_cases h2 : t.status = "paused"
        · simp [h1, h2, List.countP_cons]
          omega
        · by_cases h3 : t.status = "completed"
          · simp [h1, h2, h3, List.countP_cons]
            omega
          · by_cases h4 : t.status = "failed"
            · simp [h1, h2, h3, h4, List.countP_cons]
              omega
            · simp [h1, h2, h3, h4, List.countP_cons]

/-- Characterisation of `ceilPages` as the mathematical ceiling:
`ceilPages a b ≤ n` exactly when `n` pages of size `b` cover `a` items. -/
theorem ceilPages_le_iff (a b : Nat) (hb : 0 < b) (n : Nat) :
    ceilPages a b ≤ n ↔ a ≤ n * b := by
  unfold ceilPages
  rw [Nat.div_le_iff_le_mul_add_pred hb, Nat.mul_comm n b]
  generalize b * n = m
  omega


/-! ## Claim theorems -/

/-- C3: for every task collection, `updateTaskStats` returns, for each of the
four tracked statuses, exactly the number of tasks bearing that status; in
particular the collection with statuses
`[running, running, paused, completed, failed, completed]` yields
`{running: 2, paused: 1, completed: 2, failed: 1}`. -/
theorem updateTaskStats_exact_counts :
    (∀ tasks : List Task,
      (updateTaskStats tasks).running
          = tasks.countP (fun t => t.status = "running") ∧
      (updateTaskStats tasks).paused
          = tasks.countP (fun t => t.status = "paused") ∧
      (updateTaskStats tasks).completed
          = tasks.countP (fun t => t.status = "completed") ∧
      (updateTaskStats tasks).failed
          = tasks.countP (fun t => t.status = "failed")) ∧
    updateTaskStats
      [⟨1, "running"⟩, ⟨2, "running"⟩, ⟨3, "paused"⟩,
       ⟨4, "completed"⟩, ⟨5, "failed"⟩, ⟨6, "completed"⟩] = ⟨2, 1, 2, 1⟩ := by
  constructor
  · intro tasks
    unfold updateTaskStats
    rw [statsFoldl_counts]
    refine ⟨?_, ?_, ?_, ?_⟩ <;> simp
  · rfl

/-- C7: a poll of the task list that fails with a transport error leaves the
previously held task snapshot untouched, leaves the auto-refresh timer (its
handle and its enable flag) untouched so it keeps firing, and logs exactly
one error-level entry for the failure. -/
theorem poll_transport_failure_retains_snapshot (s : TaskMgrState)
    (m : String) :
    (loadTasksResolve s (.transport m)).tasks = s.tasks ∧
    (loadTasksResolve s (.transport m)).refreshInterval = s.refreshInterval ∧
    (loadTasksResolve s (.transport m)).autoRefreshEnabled
        = s.autoRefreshEnabled ∧
    (loadTasksResolve s (.transport m)).logs
        = addLog s.logs .error ("网络错误: " ++ m) ∧
    (loadTasksResolve s (.transport m)).logs.getLast?
        = some ⟨.error, "网络错误: " ++ m⟩ :=
  ⟨rfl, rfl, rfl, rfl, addLog_getLast s.logs .error ("网络错误: " ++ m)⟩

/-- C8: a bulk dispatch on an empty selection issues zero network calls and
only records the local validation error in the event log, leaving the
selection, the loaded page and the cursor unchanged. -/
theorem downloadSelected_empty_guard (s : AppState) (w : Nat)
    (o : FetchOutcome Unit) (h : s.selectedArticles = []) :
    (downloadSelected s w o).2 = [] ∧
    (downloadSelected s w o).1.selectedArticles = s.selectedArticles ∧
    (downloadSelected s w o).1.currentArticles = s.currentArticles ∧
    (downloadSelected s w o).1.currentPage = s.currentPage ∧
    (downloadSelected s w o).1.totalPages = s.totalPages ∧
    (downloadSelected s w o).1.logs
        = addLog s.logs .error "请先选择要下载的文章" := by
  have hlen : s.selectedArticles.length = 0 := by simp [h]
  unfold downloadSelected
  rw [if_pos hlen]
  exact ⟨rfl, rfl, rfl, rfl, rfl, rfl⟩

/-- Witness for C8 at the concrete empty-selection state. -/
theorem downloadSelected_empty_guard_witness :
    (AppState.selectedArticles ⟨[], [], 1, 1, []⟩ = []) ∧
    ((downloadSelected ⟨[], [], 1, 1, []⟩ 4 (.ok ())).2 = [] ∧
     (downloadSelected ⟨[], [], 1, 1, []⟩ 4 (.ok ())).1.selectedArticles
         = AppState.selectedArticles ⟨[], [], 1, 1, []⟩ ∧
     (downloadSelected ⟨[], [], 1, 1, []⟩ 4 (.ok ())).1.currentArticles
         = AppState.currentArticles ⟨[], [], 1, 1, []⟩ ∧
     (downloadSelected ⟨[], [], 1, 1, []⟩ 4 (.ok ())).1.currentPage
         = AppState.currentPage ⟨[], [], 1, 1, []⟩ ∧
     (downloadSelected ⟨[], [], 1, 1, []⟩ 4 (.ok ())).1.totalPages
         = AppState.totalPages ⟨[], [], 1, 1, []⟩ ∧
     (downloadSelected ⟨[], [], 1, 1, []⟩ 4 (.ok ())).1.logs
         = addLog (AppState.logs ⟨[], [], 1, 1, []⟩) .error
             "请先选择要下载的文章") :=
  ⟨rfl, downloadSelected_empty_guard ⟨[], [], 1, 1, []⟩ 4 (.ok ()) rfl⟩

/-- C9: loading a page of articles never mutates the selection, whatever the
payload or outcome; in particular after selecting ids 3 and 7 on page one,
loading page two and loading page one again the selection is still
`[3, 7]`. -/
theorem loadArticles_preserves_selection :
    (∀ (s : AppState) (o : FetchOutcome ArticlesPayload),
        (loadArticles s o).selectedArticles = s.selectedArticles) ∧
    (loadArticles
        (loadArticles (toggleSelection (toggleSelection ⟨[], [], 1, 1, []⟩ 3) 7)
          (.ok ⟨[⟨21, "F", "normal"⟩, ⟨22, "F", "normal"⟩], 2, 95, 10⟩))
        (.ok ⟨[⟨3, "F", "normal"⟩, ⟨7, "F", "normal"⟩], 1, 95, 10⟩)).selectedArticles
      = [3, 7] := by
  constructor
  · intro s o
    cases o <;> rfl
  · rfl

/-- C10: a non-empty resource file listing is rendered sorted by modification
time in descending order (most recently modified first), and the rendered
items are a permutation of exactly the files the server returned. -/
theorem renderFileList_sorted_desc (files : List ResourceFile)
    (h : files ≠ []) :
    (renderFileList files).Pairwise
        (fun a b : ResourceFile => b.modified ≤ a.modified) ∧
    (renderFileList files).Perm files := by
  have hlen : ¬ files.length = 0 := by simp [h]
  unfold renderFileList
  rw [if_neg hlen]
  constructor
  · have htrans : ∀ (a b c : ResourceFile),
        modifiedDesc a b → modifiedDesc b c → modifiedDesc a c := by
      intro a b c hab hbc
      simp only [modifiedDesc, decide_eq_true_eq] at *
      omega
    have htotal : ∀ (a b : ResourceFile),
        modifiedDesc a b || modifiedDesc b a := by
      intro a b
      simp only [modifiedDesc, Bool.or_eq_true, decide_eq_true_eq]
      omega
    have hs := List.sorted_mergeSort htrans htotal files
    exact hs.imp (fun hab => by
      simpa only [modifiedDesc, decide_eq_true_eq] using hab)
  · exact List.mergeSort_perm files modifiedDesc

/-- Witness for C10 at a concrete two-element listing delivered out of
order. -/
theorem renderFileList_sorted_desc_witness :
    ([⟨"a.txt", "p/a.txt", 10, 5⟩, ⟨"b.txt", "p/b.txt", 20, 9⟩]
        : List ResourceFile) ≠ [] ∧
    ((renderFileList
        [⟨"a.txt", "p/a.txt", 10, 5⟩, ⟨"b.txt", "p/b.txt", 20, 9⟩]).Pairwise
        (fun a b : ResourceFile => b.modified ≤ a.modified) ∧
     (renderFileList
        [⟨"a.txt", "p/a.txt", 10, 5⟩, ⟨"b.txt", "p/b.txt", 20, 9⟩]).Perm
        [⟨"a.txt", "p/a.txt", 10, 5⟩, ⟨"b.txt", "p/b.txt", 20, 9⟩]) :=
  ⟨by simp,
   renderFileList_sorted_desc
     [⟨"a.txt", "p/a.txt", 10, 5⟩, ⟨"b.txt", "p/b.txt", 20, 9⟩] (by simp)⟩


/-- C1 counterexample: dispatching the non-empty selection `[3]` whose remote
reply reports an error leaves the selection non-empty — the selection is not
cleared regardless of dispatch outcome. -/
theorem downloadSelected_error_keeps_selection_cex :
    ¬ ((downloadSelected ⟨[3], [], 1, 1, []⟩ 2 (.err "server rejected")).1.selectedArticles
        = []) := by
  decide

/-- C1 amended: after a bulk dispatch of a non-empty selection, the selection
is cleared exactly when the remote reply reports success; on an error reply
or a transport failure the selection is retained unchanged. -/
theorem downloadSelected_clears_only_on_success (s : AppState) (w : Nat)
    (h : s.selectedArticles ≠ []) :
    (downloadSelected s w (.ok ())).1.selectedArticles = [] ∧
    (∀ e, (downloadSelected s w (.err e)).1.selectedArticles
        = s.selectedArticles) ∧
    (∀ m, (downloadSelected s w (.transport m)).1.selectedArticles
        = s.selectedArticles) := by
  have hlen : ¬ s.selectedArticles.length = 0 := by
    simpa using h
  unfold downloadSelected
  simp only [if_neg hlen]
  exact ⟨rfl, fun e => True.intro, fun m => True.intro⟩

/-- Witness for the amended C1 at the concrete selection `[3]`. -/
theorem downloadSelected_clears_only_on_success_witness :
    (AppState.selectedArticles ⟨[3], [], 1, 1, []⟩ ≠ []) ∧
    ((downloadSelected ⟨[3], [], 1, 1, []⟩ 2 (.ok ())).1.selectedArticles = [] ∧
     (∀ e, (downloadSelected ⟨[3], [], 1, 1, []⟩ 2 (.err e)).1.selectedArticles
         = AppState.selectedArticles ⟨[3], [], 1, 1, []⟩) ∧
     (∀ m, (downloadSelected ⟨[3], [], 1, 1, []⟩ 2
         (.transport m)).1.selectedArticles
         = AppState.selectedArticles ⟨[3], [], 1, 1, []⟩)) :=
  ⟨by decide, downloadSelected_clears_only_on_success ⟨[3], [], 1, 1, []⟩ 2
     (by decide)⟩

/-- C2 counterexample: stop polling with an empty snapshot while a poll is in
flight; when that poll's response later resolves successfully it does mutate
the registry (`this.tasks` changes), so the late response is not discarded. -/
theorem stale_poll_mutates_registry_cex :
    ¬ ((loadTasksResolve (stopAutoRefresh ⟨[], some 7, true, []⟩)
          (.ok [⟨1, "running"⟩])).tasks
        = (stopAutoRefresh ⟨[], some 7, true, []⟩).tasks) := by
  decide

/-- C2 amended: there is no generation guard — a successful poll response
that resolves after `stopAutoRefresh` (or after a newer `startAutoRefresh`)
is still applied, overwriting the task snapshot with the returned one;
stopping only clears the interval handle so no future poll is scheduled. -/
theorem stale_poll_applied_after_stop (s : TaskMgrState) (ts : List Task) :
    (stopAutoRefresh s).refreshInterval = none ∧
    (loadTasksResolve (stopAutoRefresh s) (.ok ts)).tasks = ts ∧
    (∀ handle, (loadTasksResolve (startAutoRefresh s handle) (.ok ts)).tasks
        = ts) := by
  refine ⟨?_, rfl, fun handle => rfl⟩
  unfold stopAutoRefresh
  cases hr : s.refreshInterval with
  | none => exact hr
  | some h => rfl

/-- C6: after a successful article-page load with a positive page size,
`totalPages` is the exact ceiling of `total / perPage` (least page count
covering all items); every rendered pagination window holds at most five
indices, all clamped to `[1, totalPages]` and within two of the current
page; and the concrete instance `total = 95, per_page = 10, page = 5`
yields `totalPages = 10` with window `[3, 4, 5, 6, 7]`. -/
theorem pagination_totalPages_and_window (s : AppState) (p : ArticlesPayload)
    (hp : 0 < p.perPage) :
    (p.total ≤ (loadArticles s (.ok p)).totalPages * p.perPage ∧
     ∀ n, p.total ≤ n * p.perPage → (loadArticles s (.ok p)).totalPages ≤ n) ∧
    (∀ c t, (paginationWindow c t).length ≤ 5) ∧
    (∀ c t x, x ∈ paginationWindow c t →
        1 ≤ x ∧ x ≤ t ∧ c - 2 ≤ x ∧ x ≤ c + 2) ∧
    (ceilPages 95 10 = 10 ∧ paginationWindow 5 10 = [3, 4, 5, 6, 7]) := by
  refine ⟨⟨?_, ?_⟩, ?_, ?_, by decide, by decide⟩
  · have htp : (loadArticles s (.ok p)).totalPages = ceilPages p.total p.perPage :=
      rfl
    rw [htp]
    exact (ceilPages_le_iff p.total p.perPage hp (ceilPages p.total p.perPage)).mp
      le_rfl
  · intro n hn
    have htp : (loadArticles s (.ok p)).totalPages = ceilPages p.total p.perPage :=
      rfl
    rw [htp]
    exact (ceilPages_le_iff p.total p.perPage hp n).mpr hn
  · intro c t
    unfold paginationWindow
    by_cases h1 : t ≤ 1
    · simp [h1]
    · rw [if_neg h1]
      simp only [List.length_range']
      omega
  · intro c t x hx
    unfold paginationWindow at hx
    by_cases h1 : t ≤ 1
    · rw [if_pos h1] at hx
      simp at hx
    · rw [if_neg h1] at hx
      rw [List.mem_range'] at hx
      obtain ⟨i, hi, hxeq⟩ := hx
      omega

/-- Witness for C6 at the concrete payload `total = 95, per_page = 10`. -/
theorem pagination_totalPages_and_window_witness :
    0 < ArticlesPayload.perPage ⟨[], 5, 95, 10⟩ ∧
    ((ArticlesPayload.total ⟨[], 5, 95, 10⟩
        ≤ (loadArticles ⟨[], [], 1, 1, []⟩ (.ok ⟨[], 5, 95, 10⟩)).totalPages
            * ArticlesPayload.perPage ⟨[], 5, 95, 10⟩ ∧
      ∀ n, ArticlesPayload.total ⟨[], 5, 95, 10⟩
            ≤ n * ArticlesPayload.perPage ⟨[], 5, 95, 10⟩ →
          (loadArticles ⟨[], [], 1, 1, []⟩ (.ok ⟨[], 5, 95, 10⟩)).totalPages ≤ n) ∧
     (∀ c t, (paginationWindow c t).length ≤ 5) ∧
     (∀ c t x, x ∈ paginationWindow c t →
         1 ≤ x ∧ x ≤ t ∧ c - 2 ≤ x ∧ x ≤ c + 2) ∧
     (ceilPages 95 10 = 10 ∧ paginationWindow 5 10 = [3, 4, 5, 6, 7])) :=
  ⟨by decide,
   pagination_totalPages_and_window ⟨[], [], 1, 1, []⟩ ⟨[], 5, 95, 10⟩
     (by decide)⟩


/-- C5 counterexample: with selection exactly `[5]` and one worker, a bulk
dispatch and a single dispatch of article 5 whose remote replies both report
success do not leave the client in the same state (the bulk path clears the
selection and logs a different message). -/
theorem single_vs_bulk_not_equivalent_cex :
    ¬ (downloadSelected ⟨[5], [], 1, 1, []⟩ 1 (.ok ())
        = downloadSingle ⟨[5], [], 1, 1, []⟩ 5 (.ok ())) := by
  decide

/-- C5 amended: with selection exactly `[id]` and one worker, both paths
issue the same remote requests on every outcome and leave identical states
on an error reply and on a transport failure; on success they differ exactly
as the code dictates: the bulk path clears the selection and logs the batch
info message while the single path keeps the selection and logs the
single-article info message. -/
theorem single_vs_bulk_amended (s : AppState) (idA : Nat)
    (h : s.selectedArticles = [idA]) :
    (∀ o, (downloadSelected s 1 o).2 = (downloadSingle s idA o).2) ∧
    (∀ e, (downloadSelected s 1 (.err e)).1 = (downloadSingle s idA (.err e)).1) ∧
    (∀ m, (downloadSelected s 1 (.transport m)).1
        = (downloadSingle s idA (.transport m)).1) ∧
    (downloadSelected s 1 (.ok ())).1
        = { s with
            selectedArticles := [],
            logs := addLog s.logs .info "已启动下载任务，共 1 篇文章" } ∧
    (downloadSingle s idA (.ok ())).1
        = { s with logs := addLog s.logs .info "已启动单篇文章下载" } := by
  obtain ⟨sel, arts, cp, tp, lgs⟩ := s
  replace h : sel = [idA] := h
  subst h
  refine ⟨fun o => ?_, fun e => rfl, fun m => rfl, ?_, rfl⟩
  · cases o <;> rfl
  · have hstr : ("已启动下载任务，共 " ++ toString (1 : Nat) ++ " 篇文章")
        = "已启动下载任务，共 1 篇文章" := rfl
    simp [downloadSelected, clearSelection, hstr]

/-- Witness for the amended C5 at the concrete selection `[5]`. -/
theorem single_vs_bulk_amended_witness :
    (AppState.selectedArticles ⟨[5], [], 1, 1, []⟩ = [5]) ∧
    ((∀ o, (downloadSelected ⟨[5], [], 1, 1, []⟩ 1 o).2
        = (downloadSingle ⟨[5], [], 1, 1, []⟩ 5 o).2) ∧
     (∀ e, (downloadSelected ⟨[5], [], 1, 1, []⟩ 1 (.err e)).1
        = (downloadSingle ⟨[5], [], 1, 1, []⟩ 5 (.err e)).1) ∧
     (∀ m, (downloadSelected ⟨[5], [], 1, 1, []⟩ 1 (.transport m)).1
        = (downloadSingle ⟨[5], [], 1, 1, []⟩ 5 (.transport m)).1) ∧
     (downloadSelected ⟨[5], [], 1, 1, []⟩ 1 (.ok ())).1
        = { (⟨[5], [], 1, 1, []⟩ : AppState) with
            selectedArticles := [],
            logs := addLog (AppState.logs ⟨[5], [], 1, 1, []⟩) .info
              "已启动下载任务，共 1 篇文章" } ∧
     (downloadSingle ⟨[5], [], 1, 1, []⟩ 5 (.ok ())).1
        = { (⟨[5], [], 1, 1, []⟩ : AppState) with
            logs := addLog (AppState.logs ⟨[5], [], 1, 1, []⟩) .info
              "已启动单篇文章下载" }) :=
  ⟨rfl, single_vs_bulk_amended ⟨[5], [], 1, 1, []⟩ 5 rfl⟩

/-- C4 counterexample: a failing literature-statistics load appends no
event-log entry at all (its failure branches only call `console.error`),
contradicting the claim that every failed operation produces exactly one
error-level entry. -/
theorem literature_stats_fails_silently_cex :
    ¬ (∃ msg, (loadLiteratureStats ⟨[], [], 1, 1, []⟩ (.err "load failed")).logs
        = addLog [] .error msg) := by
  rintro ⟨msg, hmsg⟩
  simp [loadLiteratureStats, addLog] at hmsg

/-- C4 amended: every failed console operation updates the event log by
exactly one error-level `addLog` entry with a human-readable cause — applied
either directly to the prior log or, for the operations that log a starting
info entry before dispatching (search/journal task starts, download start),
on top of that single info entry — except the literature-statistics load and
the resource-file listings, which fail silently, leaving the event log
untouched. -/
theorem failed_ops_log_one_error_except_silent (op : ConsoleOp) (s : AppState)
    (ts : TaskMgrState) (aid w : Nat) (e : String) (t : Bool) :
    (silentOnFailure op = true →
        opFailLogs op s ts aid w e t = opBaseLogs op s ts) ∧
    (silentOnFailure op = false →
        ∃ pre msg, opFailLogs op s ts aid w e t = addLog pre .error msg ∧
          (pre = opBaseLogs op s ts ∨
           ∃ im, pre = addLog (opBaseLogs op s ts) .info im)) := by
  cases op with
  | literatureStatsOp =>
      refine ⟨fun _ => ?_, fun hf => ?_⟩
      · cases t <;> rfl
      · simp [silentOnFailure] at hf
  | resourceFilesOp c =>
      refine ⟨fun _ => ?_, fun hf => ?_⟩
      · cases t <;> rfl
      · simp [silentOnFailure] at hf
  | loadArticlesOp =>
      refine ⟨fun hs => by simp [silentOnFailure] at hs, fun _ => ?_⟩
      cases t
      · exact ⟨_, "加载文章失败: " ++ e, rfl, Or.inl rfl⟩
      · exact ⟨_, "网络错误: " ++ e, rfl, Or.inl rfl⟩
  | downloadSelectedOp =>
      refine ⟨fun hs => by simp [silentOnFailure] at hs, fun _ => ?_⟩
      by_cases hsel : s.selectedArticles.length = 0
      · refine ⟨s.logs, "请先选择要下载的文章", ?_, Or.inl rfl⟩
        cases t <;> simp [opFailLogs, downloadSelected, hsel]
      · cases t
        · refine ⟨s.logs, "启动下载失败: " ++ e, ?_, Or.inl rfl⟩
          simp [opFailLogs, downloadSelected, hsel]
        · refine ⟨s.logs, "网络错误: " ++ e, ?_, Or.inl rfl⟩
          simp [opFailLogs, downloadSelected, hsel]
  | downloadSingleOp =>
      refine ⟨fun hs => by simp [silentOnFailure] at hs, fun _ => ?_⟩
      cases t
      · exact ⟨_, "启动下载失败: " ++ e, rfl, Or.inl rfl⟩
      · exact ⟨_, "网络错误: " ++ e, rfl, Or.inl rfl⟩
  | tasksLoadOp =>
      refine ⟨fun hs => by simp [silentOnFailure] at hs, fun _ => ?_⟩
      cases t
      · exact ⟨_, "加载任务失败: " ++ e, rfl, Or.inl rfl⟩
      · exact ⟨_, "网络错误: " ++ e, rfl, Or.inl rfl⟩
  | pauseTaskOp =>
      refine ⟨fun hs => by simp [silentOnFailure] at hs, fun _ => ?_⟩
      cases t
      · exact ⟨_, "暂停任务失败: " ++ e, rfl, Or.inl rfl⟩
      · exact ⟨_, "网络错误: " ++ e, rfl, Or.inl rfl⟩
  | resumeTaskOp =>
      refine ⟨fun hs => by simp [silentOnFailure] at hs, fun _ => ?_⟩
      cases t
      · exact ⟨_, "恢复任务失败: " ++ e, rfl, Or.inl rfl⟩
      · exact ⟨_, "网络错误: " ++ e, rfl, Or.inl rfl⟩
  | stopTaskOp =>
      refine ⟨fun hs => by simp [silentOnFailure] at hs, fun _ => ?_⟩
      cases t
      · exact ⟨_, "停止任务失败: " ++ e, rfl, Or.inl rfl⟩
      · exact ⟨_, "网络错误: " ++ e, rfl, Or.inl rfl⟩
  | taskDetailsOp =>
      refine ⟨fun hs => by simp [silentOnFailure] at hs, fun _ => ?_⟩
      cases t
      · exact ⟨_, "获取任务详情失败: " ++ e, rfl, Or.inl rfl⟩
      · exact ⟨_, "网络错误: " ++ e, rfl, Or.inl rfl⟩
  | literatureTypesOp =>
      refine ⟨fun hs => by simp [silentOnFailure] at hs, fun _ => ?_⟩
      cases t
      · exact ⟨_, "加载文献类型失败: " ++ e, rfl, Or.inl rfl⟩
      · exact ⟨_, "网络错误: " ++ e, rfl, Or.inl rfl⟩
  | keywordSearchStartOp kws tn =>
      refine ⟨fun hs => by simp [silentOnFailure] at hs, fun _ => ?_⟩
      by_cases hk : kws.length = 0
      · refine ⟨s.logs, "请输入至少一个关键词", ?_, Or.inl rfl⟩
        cases t <;> simp [opFailLogs, startKeywordSearch, hk]
      · cases t
        · refine ⟨addLog s.logs .info ("正在启动" ++ tn ++ "..."),
            "启动" ++ tn ++ "失败: " ++ e, ?_,
            Or.inr ⟨"正在启动" ++ tn ++ "...", rfl⟩⟩
          simp [opFailLogs, startKeywordSearch, startTask, hk]
        · refine ⟨addLog s.logs .info ("正在启动" ++ tn ++ "..."),
            "网络错误: " ++ e, ?_,
            Or.inr ⟨"正在启动" ++ tn ++ "...", rfl⟩⟩
          simp [opFailLogs, startKeywordSearch, startTask, hk]
  | journalScrapeStartOp =>
      refine ⟨fun hs => by simp [silentOnFailure] at hs, fun _ => ?_⟩
      cases t
      · exact ⟨_, "启动" ++ "期刊检索" ++ "失败: " ++ e, rfl,
          Or.inr ⟨"正在启动" ++ "期刊检索" ++ "...", rfl⟩⟩
      · exact ⟨_, "网络错误: " ++ e, rfl,
          Or.inr ⟨"正在启动" ++ "期刊检索" ++ "...", rfl⟩⟩
  | searchHistoryOp =>
      refine ⟨fun hs => by simp [silentOnFailure] at hs, fun _ => ?_⟩
      cases t
      · exact ⟨_, "加载搜索历史失败: " ++ e, rfl, Or.inl rfl⟩
      · exact ⟨_, "网络错误: " ++ e, rfl, Or.inl rfl⟩
  | dlTasksLoadOp =>
      refine ⟨fun hs => by simp [silentOnFailure] at hs, fun _ => ?_⟩
      cases t
      · exact ⟨_, "加载下载任务失败: " ++ e, rfl, Or.inl rfl⟩
      · exact ⟨_, "网络错误: " ++ e, rfl, Or.inl rfl⟩
  | dlTaskDetailsOp =>
      refine ⟨fun hs => by simp [silentOnFailure] at hs, fun _ => ?_⟩
      cases t
      · exact ⟨_, "获取任务详情失败: " ++ e, rfl, Or.inl rfl⟩
      · exact ⟨_, "网络错误: " ++ e, rfl, Or.inl rfl⟩
  | startDownloadOp =>
      refine ⟨fun hs => by simp [silentOnFailure] at hs, fun _ => ?_⟩
      cases t
      · exact ⟨_, "启动下载失败: " ++ e, rfl,
          Or.inr ⟨"正在启动下载任务...", rfl⟩⟩
      · exact ⟨_, "网络错误: " ++ e, rfl,
          Or.inr ⟨"正在启动下载任务...", rfl⟩⟩
  | stopDownloadOp =>
      refine ⟨fun hs => by simp [silentOnFailure] at hs, fun _ => ?_⟩
      cases t
      · exact ⟨_, "停止下载失败: " ++ e, rfl, Or.inl rfl⟩
      · exact ⟨_, "网络错误: " ++ e, rfl, Or.inl rfl⟩

/-- Witness for the amended C4: a concrete silent operation (the link-file
listing) leaves the log unchanged at a failing input, and a concrete
non-silent operation (the task-list poll) produces its one error entry. -/
theorem failed_ops_log_one_error_except_silent_witness :
    (opFailLogs (.resourceFilesOp .links) ⟨[], [], 1, 1, []⟩
        ⟨[], none, true, []⟩ 0 1 "x" false
      = opBaseLogs (.resourceFilesOp .links) ⟨[], [], 1, 1, []⟩
          ⟨[], none, true, []⟩) ∧
    (∃ pre msg, opFailLogs .tasksLoadOp ⟨[], [], 1, 1, []⟩ ⟨[], none, true, []⟩
        0 1 "x" false
      = addLog pre .error msg ∧
        (pre = opBaseLogs .tasksLoadOp ⟨[], [], 1, 1, []⟩ ⟨[], none, true, []⟩ ∨
         ∃ im, pre = addLog
            (opBaseLogs .tasksLoadOp ⟨[], [], 1, 1, []⟩ ⟨[], none, true, []⟩)
            .info im)) :=
  ⟨(failed_ops_log_one_error_except_silent (.resourceFilesOp .links)
      ⟨[], [], 1, 1, []⟩ ⟨[], none, true, []⟩ 0 1 "x" false).1 rfl,
   (failed_ops_log_one_error_except_silent .tasksLoadOp ⟨[], [], 1, 1, []⟩
      ⟨[], none, true, []⟩ 0 1 "x" false).2 rfl⟩

end Cnki
